import Mathlib

/-!
Verification of the conversation-session and request-dispatcher core of the
DeepSeek chat client (`src/main.py`).

The embedding translates the Python source:
- `DeepSeekChat.send_message` (validation, history append with truncation to
  the last 10 entries, payload construction, button disabling),
- `DeepSeekChat.handle_response` / `DeepSeekChat.handle_error` (terminal
  outcome handlers on the foreground context),
- `ApiThread.run` (the one-shot HTTP worker: status check, JSON shape check,
  content extraction, and the three failure branches).

The HTTP layer itself is abstracted as an `HttpResult` value describing what
the network call produced (an exception, or a response with a status code, raw
body text, and a parse of the body as JSON); `ApiThread.run` is then a total
function from that value to the single emitted `Outcome`, mirroring the
control flow of the `try`/`except` block line by line.
-/

/-- Role tag of a chat message (`"user"` / `"assistant"` in the dicts the
source appends to `self.history`). -/
inductive Role where
  | user
  | assistant
deriving DecidableEq, Repr

/-- One entry of `self.history`: `{"role": ..., "content": ...}`. -/
structure Message where
  role : Role
  content : String
deriving DecidableEq, Repr

/-- The truncation step of `send_message` (src/main.py:191-192):
`if len(self.history) > 10: self.history = self.history[-10:]`. -/
def truncate10 (l : List Message) : List Message :=
  if l.length > 10 then l.drop (l.length - 10) else l

/-- The user-append performed by `send_message` (src/main.py:190-192):
append `{"role": "user", "content": message}` then truncate to the last 10. -/
def appendUser (h : List Message) (content : String) : List Message :=
  truncate10 (h ++ [{ role := Role.user, content := content }])

/-- The assistant-append performed by `handle_response` (src/main.py:214):
append `{"role": "assistant", "content": response}`; the source applies no
truncation here. -/
def appendAssistant (h : List Message) (content : String) : List Message :=
  h ++ [{ role := Role.assistant, content := content }]

/-- One append operation on the session, as the program performs them: a user
append before a dispatch, or an assistant append after a successful response. -/
inductive Op where
  | user (content : String)
  | assistant (content : String)
deriving DecidableEq, Repr

/-- The message an append operation adds to the history. -/
def opMsg : Op → Message
  | Op.user c => { role := Role.user, content := c }
  | Op.assistant c => { role := Role.assistant, content := c }

/-- Effect of one append operation on the history, as the source performs it. -/
def applyOp (h : List Message) : Op → List Message
  | Op.user c => appendUser h c
  | Op.assistant c => appendAssistant h c

/-- Run a sequence of append operations starting from the empty session
(`self.history = []` at construction, src/main.py:66). -/
def runOps (ops : List Op) : List Message :=
  ops.foldl applyOp []

/-- Program-order well-formedness of an append sequence: an assistant append
(`handle_response`) can only occur immediately after the user append of the
dispatch it answers, because the send control is disabled while the dispatch
is in flight (src/main.py:195, 205-207, 210).  The flag records whether the
previous operation was a user append. -/
def wfFrom : Bool → List Op → Bool
  | _, [] => true
  | _, Op.user _ :: rest => wfFrom true rest
  | prevUser, Op.assistant _ :: rest => prevUser && wfFrom false rest

/-- Append sequences the program can actually produce (no leading assistant
append, no two assistant appends in a row). -/
def WF (ops : List Op) : Bool := wfFrom false ops

/-- The append sequence of `n` successful round trips: round `k` is one user
append of `u k` followed by one assistant append of `a k`. -/
def rtOps (u a : Nat → String) (n : Nat) : List Op :=
  (List.range n).flatMap (fun k => [Op.user (u k), Op.assistant (a k)])

/-- The Python method `str.strip()` with no argument (src/main.py:166, 172): remove
leading and trailing whitespace.  Defined structurally on the character list
so it evaluates by reduction. -/
def strip (s : String) : String :=
  String.mk (((s.data.dropWhile Char.isWhitespace).reverse.dropWhile
    Char.isWhitespace).reverse)

/-- The request parameters read from the UI controls (src/main.py:183-187). -/
structure Params where
  temperature : Rat
  top_p : Rat
  max_tokens : Nat
deriving DecidableEq, Repr

/-- The outbound request body `data` built in `ApiThread.run`
(src/main.py:31-35): `{"model": ..., "messages": ..., **parameters}`. -/
structure Payload where
  model : String
  messages : List Message
  temperature : Rat
  top_p : Rat
  max_tokens : Nat
deriving DecidableEq, Repr

/-- What `send_message` does from the point of view of the UI: either a blocking
warning dialog (validation failure, no dispatch), or a dispatch of a payload
on a fresh worker thread. -/
inductive SendAction where
  | warning (text : String)
  | dispatched (pay : Payload)
deriving DecidableEq, Repr

/-- The mutable state of `DeepSeekChat` relevant to the claims: the
conversation history, the API-key history of the combo box, and whether the
send button is enabled. -/
structure ChatState where
  history : List Message
  api_history : List String
  send_btn_enabled : Bool
deriving DecidableEq, Repr

/-- Initial state: empty history (src/main.py:66), empty key history, send
button enabled. -/
def initState : ChatState :=
  { history := [], api_history := [], send_btn_enabled := true }

/-- `DeepSeekChat.send_message` (src/main.py:165-207).  Inputs are the raw
combo-box text, the raw input text, the selected model and the parameter
controls.  Returns the action taken and the successor state:
- empty stripped key → warning dialog, state unchanged (lines 166-169);
- empty stripped message → warning dialog, state unchanged (lines 172-175);
- otherwise: record the key in the key history if new (lines 178-179), append
  the user message and truncate (lines 190-192), disable the send button
  (line 195), and dispatch the payload `{model, messages, **parameters}`
  built from the current history snapshot (lines 199-204, 31-35). -/
def send_message (st : ChatState) (rawKey rawMsg model : String) (params : Params) :
    SendAction × ChatState :=
  if strip rawKey = "" then
    (SendAction.warning "请输入有效的API密钥", st)
  else if strip rawMsg = "" then
    (SendAction.warning "请输入消息内容", st)
  else
    (SendAction.dispatched
      { model := model
        messages := appendUser st.history (strip rawMsg)
        temperature := params.temperature
        top_p := params.top_p
        max_tokens := params.max_tokens },
     { history := appendUser st.history (strip rawMsg)
       api_history :=
         if st.api_history.contains (strip rawKey) then st.api_history
         else st.api_history ++ [strip rawKey]
       send_btn_enabled := false })

/-- `DeepSeekChat.handle_response` (src/main.py:209-215): re-enable the send
button and append the assistant reply to the history (no truncation). -/
def handle_response (st : ChatState) (response : String) : ChatState :=
  { st with
    send_btn_enabled := true
    history := appendAssistant st.history response }

/-- `DeepSeekChat.handle_error` (src/main.py:217-221): re-enable the send
button; the history is not touched. -/
def handle_error (st : ChatState) (error : String) : ChatState :=
  { st with send_btn_enabled := true }

/-- The `"message"` object of a choice in the response JSON; `content` is
`none` when the `"content"` key is absent. -/
structure MsgObj where
  content : Option String
deriving DecidableEq, Repr

/-- One element of the `"choices"` list; `message` is `none` when the
`"message"` key is absent. -/
structure ChoiceObj where
  message : Option MsgObj
deriving DecidableEq, Repr

/-- The parsed response body; `choices` is `none` when the `"choices"` key is
absent. -/
structure ResultObj where
  choices : Option (List ChoiceObj)
deriving DecidableEq, Repr

/-- Outcome of `response.json()` (src/main.py:45): either a decode error with
its description (the text of the exception), or a parsed body. -/
inductive BodyParse where
  | parseError (desc : String)
  | parsed (result : ResultObj)
deriving DecidableEq, Repr

/-- What the network call in `ApiThread.run` produced: `exn` when
`requests.post` raised (timeout, connection error, ...) with the description
of the exception, or `resp` with the HTTP status code, the raw body text
(`response.text`), and the result of parsing the body as JSON. -/
inductive HttpResult where
  | exn (desc : String)
  | resp (status : Nat) (text : String) (body : BodyParse)
deriving DecidableEq, Repr

/-- The single terminal signal a dispatch emits: `response_received(content)`
or `error_occurred(msg)`. -/
inductive Outcome where
  | success (content : String)
  | failure (msg : String)
deriving DecidableEq, Repr

namespace ApiThread

/-- `ApiThread.run` (src/main.py:23-57) as a total function from the abstract
network result to the one emitted outcome:
- an exception anywhere in the `try` block reaches the `except` branch, which
  emits `"请求失败: " + str(e)` (line 57); this covers a raised `requests.post`,
  a JSON decode error, and a `KeyError` from the extraction
  `result["choices"][0]["message"]["content"]` (line 48), whose Python
  description is the quoted key name;
- status 200 with a present, non-empty `choices` list and both keys present
  emits the content (lines 47-49);
- status 200 with `choices` absent or empty emits the fixed diagnostic
  `"无效的API响应格式"` (lines 50-51);
- status ≠ 200 emits `"API错误: {status} - {text}"` (lines 53-54). -/
def run (r : HttpResult) : Outcome :=
  match r with
  | HttpResult.exn d => Outcome.failure ("请求失败: " ++ d)
  | HttpResult.resp status text body =>
    if status = 200 then
      match body with
      | BodyParse.parseError d => Outcome.failure ("请求失败: " ++ d)
      | BodyParse.parsed result =>
        match result.choices with
        | some (c0 :: _) =>
          match c0.message with
          | some m =>
            match m.content with
            | some content => Outcome.success content
            | none => Outcome.failure ("请求失败: " ++ "\x27content\x27")
          | none => Outcome.failure ("请求失败: " ++ "\x27message\x27")
        | some [] => Outcome.failure "无效的API响应格式"
        | none => Outcome.failure "无效的API响应格式"
    else
      Outcome.failure ("API错误: " ++ toString status ++ " - " ++ text)

end ApiThread

/-- String containment, phrased on the underlying character lists. -/
def containsStr (hay needle : String) : Prop :=
  needle.data <:+: hay.data

/-- The parameter-control defaults of the UI (src/main.py:101, 109, 116). -/
def dparams : Params :=
  { temperature := 7 / 10, top_p := 1, max_tokens := 1024 }

/-- One failed attempt: a validated send (key `"k"`) of message `m` whose
dispatch ends in `handle_error`. -/
def failRound (st : ChatState) (m : String) : ChatState :=
  handle_error (send_message st "k" m "deepseek-chat" dparams).2 "boom"

/-- The state after ten failed attempts with messages `"m0"` ... `"m9"`,
starting from the initial state. -/
def failedTenState : ChatState :=
  (List.range 10).foldl (fun st i => failRound st ("m" ++ toString i)) initState

/-- The messages a send action puts on the wire (empty when no dispatch). -/
def payloadMessages : SendAction → List Message
  | SendAction.dispatched p => p.messages
  | SendAction.warning _ => []

/-- Whether a send action actually dispatched a request. -/
def isDispatched : SendAction → Bool
  | SendAction.dispatched _ => true
  | SendAction.warning _ => false

/-! ## Helper lemmas about the truncation window -/

theorem truncate10_eq_drop (l : List Message) :
    truncate10 l = l.drop (l.length - 10) := by
  unfold truncate10
  split
  next => rfl
  next h => rw [Nat.sub_eq_zero_of_le (by omega), List.drop_zero]

theorem truncate10_suffix (l : List Message) : truncate10 l <:+ l := by
  rw [truncate10_eq_drop]
  exact List.drop_suffix _ _

theorem appendUser_length_le (h : List Message) (c : String) :
    (appendUser h c).length ≤ 10 := by
  unfold appendUser
  rw [truncate10_eq_drop, List.length_drop]
  simp only [List.length_append, List.length_singleton]
  omega

theorem appendUser_eq_drop (h : List Message) (c : String) :
    appendUser h c =
      h.drop (h.length + 1 - 10) ++ [{ role := Role.user, content := c }] := by
  unfold appendUser
  rw [truncate10_eq_drop]
  simp only [List.length_append, List.length_singleton]
  exact List.drop_append_of_le_length (by omega)

theorem send_message_dispatched {st : ChatState} {rawKey rawMsg model : String}
    {params : Params} {pay : Payload} {st' : ChatState}
    (hd : send_message st rawKey rawMsg model params =
      (SendAction.dispatched pay, st')) :
    pay = { model := model
            messages := appendUser st.history (strip rawMsg)
            temperature := params.temperature
            top_p := params.top_p
            max_tokens := params.max_tokens } ∧
    st' = { history := appendUser st.history (strip rawMsg)
            api_history :=
              if st.api_history.contains (strip rawKey) then st.api_history
              else st.api_history ++ [strip rawKey]
            send_btn_enabled := false } := by
  unfold send_message at hd
  split at hd
  · simp at hd
  · split at hd
    · simp at hd
    · simp only [Prod.mk.injEq, SendAction.dispatched.injEq] at hd
      exact ⟨hd.1.symm, hd.2.symm⟩

theorem foldl_applyOp_suffix (ops : List Op) :
    ∀ h base : List Message, h <:+ base →
      ops.foldl applyOp h <:+ base ++ List.map opMsg ops := by
  induction ops with
  | nil =>
    intro h base hs
    simpa using hs
  | cons op rest ih =>
    intro h base hs
    have hstep : applyOp h op <:+ base ++ [opMsg op] := by
      obtain ⟨t, ht⟩ := hs
      cases op with
      | user c =>
        refine List.IsSuffix.trans (truncate10_suffix _) ⟨t, ?_⟩
        rw [← List.append_assoc, ht]
        rfl
      | assistant c =>
        exact ⟨t, by rw [applyOp, appendAssistant, ← List.append_assoc, ht]; rfl⟩
    have := ih (applyOp h op) (base ++ [opMsg op]) hstep
    simpa [List.append_assoc] using this

theorem foldl_applyOp_length (ops : List Op) :
    ∀ (pu : Bool) (h : List Message), wfFrom pu ops = true →
      h.length ≤ (if pu then 10 else 11) →
      (ops.foldl applyOp h).length ≤ 11 := by
  induction ops with
  | nil =>
    intro pu h _ hlen
    simp only [List.foldl_nil]
    cases pu <;> simp at hlen <;> omega
  | cons op rest ih =>
    intro pu h hwf hlen
    cases op with
    | user c =>
      simp only [wfFrom] at hwf
      have := ih true (appendUser h c) hwf (by simpa using appendUser_length_le h c)
      simpa using this
    | assistant c =>
      simp only [wfFrom, Bool.and_eq_true] at hwf
      obtain ⟨hpu, hwf'⟩ := hwf
      subst hpu
      have hlen10 : h.length ≤ 10 := by simpa using hlen
      have := ih false (appendAssistant h c) hwf' (by
        simp [appendAssistant]
        omega)
      simpa using this

/-! ## Claim theorems -/

/-- Claim C1 as stated is false on the code: the append sequence of six
successful round trips is a program-order sequence of appends (user append
before each dispatch, assistant append after each successful response), yet
afterwards the session holds 11 messages, because `handle_response`
(src/main.py:214) appends the assistant reply without re-applying the
truncation of src/main.py:191-192. -/
theorem c1_window_counterexample :
    WF (rtOps (fun k => "u" ++ toString k) (fun k => "a" ++ toString k) 6) = true ∧
    ¬ (runOps (rtOps (fun k => "u" ++ toString k)
        (fun k => "a" ++ toString k) 6)).length ≤ 10 := by
  decide

/-- Claim C1, amended: for every program-order sequence of append operations,
the session holds at most 11 messages (the bound 10 can be exceeded, by one,
only immediately after an assistant append); immediately after any user
append it holds at most 10; and the retained messages are always the most
recently appended ones, in insertion order (a suffix of the full appended
sequence). -/
theorem c1_window_amended (ops : List Op) (c : String) (hwf : WF ops = true) :
    (runOps ops).length ≤ 11 ∧
    runOps ops <:+ List.map opMsg ops ∧
    (runOps (ops ++ [Op.user c])).length ≤ 10 := by
  refine ⟨?_, ?_, ?_⟩
  · exact foldl_applyOp_length ops false [] hwf (by simp)
  · simpa [runOps] using foldl_applyOp_suffix ops [] [] (List.suffix_refl [])
  · show (List.foldl applyOp [] (ops ++ [Op.user c])).length ≤ 10
    rw [List.foldl_append]
    simpa [applyOp] using appendUser_length_le (List.foldl applyOp [] ops) c

/-- Witness for `c1_window_amended` at a concrete one-round trace. -/
theorem c1_window_witness :
    (runOps [Op.user "hi", Op.assistant "yo"]).length ≤ 11 ∧
    runOps [Op.user "hi", Op.assistant "yo"] <:+
      List.map opMsg [Op.user "hi", Op.assistant "yo"] ∧
    (runOps ([Op.user "hi", Op.assistant "yo"] ++ [Op.user "again"])).length ≤ 10 :=
  c1_window_amended [Op.user "hi", Op.assistant "yo"] "again" (by decide)

/-- Claim C2 as stated is false on the code: after 12 successful round trips
starting from an empty session, the session holds 11 messages, not 10
(`handle_response` appends the 12th assistant reply without truncating). -/
theorem c2_twelve_rounds_counterexample :
    ¬ (runOps (rtOps (fun k => "u" ++ toString k)
        (fun k => "a" ++ toString k) 12)).length = 10 := by
  decide

/-- Claim C2, amended: starting from an empty session, after 12 sequential
successful round-trip sends the session length is exactly 11 and its contents
are the assistant reply of round 7 followed by the last 5 user/assistant
pairs (rounds 8-12), in order. -/
theorem c2_twelve_rounds_amended (u a : Nat → String) :
    runOps (rtOps u a 12) =
      [{ role := Role.assistant, content := a 6 },
       { role := Role.user, content := u 7 },
       { role := Role.assistant, content := a 7 },
       { role := Role.user, content := u 8 },
       { role := Role.assistant, content := a 8 },
       { role := Role.user, content := u 9 },
       { role := Role.assistant, content := a 9 },
       { role := Role.user, content := u 10 },
       { role := Role.assistant, content := a 10 },
       { role := Role.user, content := u 11 },
       { role := Role.assistant, content := a 11 }] ∧
    (runOps (rtOps u a 12)).length = 11 := by
  have hlist : rtOps u a 12 =
      [Op.user (u 0), Op.assistant (a 0), Op.user (u 1), Op.assistant (a 1),
       Op.user (u 2), Op.assistant (a 2), Op.user (u 3), Op.assistant (a 3),
       Op.user (u 4), Op.assistant (a 4), Op.user (u 5), Op.assistant (a 5),
       Op.user (u 6), Op.assistant (a 6), Op.user (u 7), Op.assistant (a 7),
       Op.user (u 8), Op.assistant (a 8), Op.user (u 9), Op.assistant (a 9),
       Op.user (u 10), Op.assistant (a 10), Op.user (u 11), Op.assistant (a 11)] := by
    simp [rtOps, List.range_succ]
  constructor
  · rw [hlist]
    simp [runOps, applyOp, appendUser, appendAssistant, truncate10]
  · rw [hlist]
    simp [runOps, applyOp, appendUser, appendAssistant, truncate10]

/-- Claim C3: whenever a validated send dispatches a request, the outbound
payload carries exactly the current session transcript (the history as it
stands at dispatch time) together with the request parameters and model, and
that transcript holds at most 10 entries — for every session state, hence in
particular for every reachable one.  The bound holds because the truncation
of src/main.py:191-192 runs immediately before the worker is started. -/
theorem c3_dispatch_invariant (st : ChatState) (rawKey rawMsg model : String)
    (params : Params) (pay : Payload) (st' : ChatState)
    (hd : send_message st rawKey rawMsg model params =
      (SendAction.dispatched pay, st')) :
    pay.messages = st'.history ∧
    pay.messages.length ≤ 10 ∧
    pay.model = model ∧
    pay.temperature = params.temperature ∧
    pay.top_p = params.top_p ∧
    pay.max_tokens = params.max_tokens := by
  obtain ⟨hp, hs⟩ := send_message_dispatched hd
  subst hp
  subst hs
  exact ⟨rfl, appendUser_length_le _ _, rfl, rfl, rfl, rfl⟩

/-- Witness for `c3_dispatch_invariant` at a concrete validated send. -/
theorem c3_dispatch_invariant_witness :
    ([{ role := Role.user, content := "hi" }] : List Message).length ≤ 10 :=
  (c3_dispatch_invariant initState "k" "hi" "deepseek-chat" dparams
    { model := "deepseek-chat"
      messages := [{ role := Role.user, content := "hi" }]
      temperature := 7 / 10
      top_p := 1
      max_tokens := 1024 }
    { history := [{ role := Role.user, content := "hi" }]
      api_history := ["k"]
      send_btn_enabled := false } rfl).2.1

/-- Claim C4: every invocation of `ApiThread.run` signals exactly one of the
two terminal outcomes — success or failure, never both, never zero —
whatever the HTTP status, body shape, or transport fault.  In the embedding
`run` is a total function into `Outcome`, mirroring that every control path
of the `try`/`except` block reaches exactly one `emit`. -/
theorem c4_exactly_one_outcome (r : HttpResult) :
    ((∃ c, ApiThread.run r = Outcome.success c) ∧
      ¬ ∃ m, ApiThread.run r = Outcome.failure m) ∨
    ((∃ m, ApiThread.run r = Outcome.failure m) ∧
      ¬ ∃ c, ApiThread.run r = Outcome.success c) := by
  cases hr : ApiThread.run r with
  | success c =>
    refine Or.inl ⟨⟨c, rfl⟩, ?_⟩
    rintro ⟨m, hm⟩
    exact Outcome.noConfusion hm
  | failure m =>
    refine Or.inr ⟨⟨m, rfl⟩, ?_⟩
    rintro ⟨c, hc⟩
    exact Outcome.noConfusion hc

/-- Witness for `c4_exactly_one_outcome` at a concrete transport fault. -/
theorem c4_exactly_one_outcome_witness :
    ((∃ c, ApiThread.run (HttpResult.exn "timeout") = Outcome.success c) ∧
      ¬ ∃ m, ApiThread.run (HttpResult.exn "timeout") = Outcome.failure m) ∨
    ((∃ m, ApiThread.run (HttpResult.exn "timeout") = Outcome.failure m) ∧
      ¬ ∃ c, ApiThread.run (HttpResult.exn "timeout") = Outcome.success c) :=
  c4_exactly_one_outcome (HttpResult.exn "timeout")

/-- Claim C5: for every response with HTTP status ≠ 200, `ApiThread.run`
signals failure, and the failure message contains both the numeric status
code and the raw response body text (src/main.py:53-54 emits
`"API错误: {status} - {text}"`). -/
theorem c5_http_error_message (status : Nat) (text : String) (body : BodyParse)
    (h : status ≠ 200) :
    ∃ m, ApiThread.run (HttpResult.resp status text body) = Outcome.failure m ∧
      containsStr m (toString status) ∧ containsStr m text := by
  refine ⟨"API错误: " ++ toString status ++ " - " ++ text, ?_, ?_, ?_⟩
  · simp [ApiThread.run, h]
  · exact ⟨"API错误: ".data, (" - " ++ text).data,
      by simp [String.data_append, List.append_assoc]⟩
  · exact ⟨("API错误: " ++ toString status ++ " - ").data, [],
      by simp [String.data_append, List.append_assoc]⟩

/-- Witness for `c5_http_error_message`: a mock HTTP 500 response with body
`"server error"` yields a failure message containing both `500` and
`"server error"`. -/
theorem c5_http_error_message_witness :
    ∃ m, ApiThread.run (HttpResult.resp 500 "server error"
        (BodyParse.parseError "x")) = Outcome.failure m ∧
      containsStr m (toString 500) ∧ containsStr m "server error" :=
  c5_http_error_message 500 "server error" (BodyParse.parseError "x") (by decide)

/-- Claim C6: a 200 response whose JSON lacks a non-empty `"choices"` list
(key absent or list empty) makes `ApiThread.run` signal failure with the
fixed diagnostic `"无效的API响应格式"` (src/main.py:50-51) — no crash, no
success; and a 200 response with `choices[0].message.content == "hello"`
makes it signal success with exactly `"hello"` (src/main.py:47-49). -/
theorem c6_format_and_success :
    (∀ (text : String) (result : ResultObj),
        (result.choices = none ∨ result.choices = some []) →
        ApiThread.run (HttpResult.resp 200 text (BodyParse.parsed result)) =
          Outcome.failure "无效的API响应格式") ∧
    (∀ text : String,
        ApiThread.run (HttpResult.resp 200 text (BodyParse.parsed
          { choices := some [{ message := some { content := some "hello" } }] })) =
          Outcome.success "hello") := by
  constructor
  · intro text result h
    rcases h with h | h <;> simp [ApiThread.run, h]
  · intro text
    rfl

/-- Witness for `c6_format_and_success`: the mock 200 response
`{"choices": []}` produces the malformed-format failure. -/
theorem c6_format_and_success_witness :
    ApiThread.run (HttpResult.resp 200 "body" (BodyParse.parsed
        { choices := some [] })) = Outcome.failure "无效的API响应格式" :=
  c6_format_and_success.1 "body" { choices := some [] } (Or.inr rfl)

/-- Claim C7: a send whose API key or message text is empty after stripping
whitespace never reaches the dispatcher: `send_message` returns a blocking
warning dialog and leaves the whole state — history included — unchanged
(src/main.py:166-175 return before any append or thread start). -/
theorem c7_validation_blocks (st : ChatState) (rawKey rawMsg model : String)
    (params : Params) (h : strip rawKey = "" ∨ strip rawMsg = "") :
    ∃ w, send_message st rawKey rawMsg model params = (SendAction.warning w, st) := by
  by_cases hk : strip rawKey = ""
  · exact ⟨"请输入有效的API密钥", by simp [send_message, hk]⟩
  · have hm : strip rawMsg = "" := h.resolve_left hk
    exact ⟨"请输入消息内容", by simp [send_message, hk, hm]⟩

/-- Witness for `c7_validation_blocks`: a whitespace-only message is blocked
with the state untouched. -/
theorem c7_validation_blocks_witness :
    ∃ w, send_message initState "k" "   " "deepseek-chat" dparams =
      (SendAction.warning w, initState) :=
  c7_validation_blocks initState "k" "   " "deepseek-chat" dparams (Or.inr rfl)

/-- Claim C8: the send control is disabled in the state every dispatch leaves
behind (src/main.py:195), and both terminal handlers re-enable it
unconditionally as their first effect (src/main.py:210, 218), so at most one
dispatch is in flight at a time from the perspective of the UI. -/
theorem c8_send_button :
    (∀ (st : ChatState) (rawKey rawMsg model : String) (params : Params)
        (pay : Payload) (st' : ChatState),
        send_message st rawKey rawMsg model params =
          (SendAction.dispatched pay, st') →
        st'.send_btn_enabled = false) ∧
    (∀ (st : ChatState) (r : String),
        (handle_response st r).send_btn_enabled = true) ∧
    (∀ (st : ChatState) (e : String),
        (handle_error st e).send_btn_enabled = true) := by
  refine ⟨?_, fun st r => rfl, fun st e => rfl⟩
  intro st rawKey rawMsg model params pay st' hd
  obtain ⟨-, hs⟩ := send_message_dispatched hd
  subst hs
  rfl

/-- Witness for `c8_send_button` at a concrete dispatch. -/
theorem c8_send_button_witness :
    ({ history := [{ role := Role.user, content := "hi" }]
       api_history := ["k"]
       send_btn_enabled := false } : ChatState).send_btn_enabled = false :=
  c8_send_button.1 initState "k" "hi" "deepseek-chat" dparams
    { model := "deepseek-chat"
      messages := [{ role := Role.user, content := "hi" }]
      temperature := 7 / 10
      top_p := 1
      max_tokens := 1024 }
    { history := [{ role := Role.user, content := "hi" }]
      api_history := ["k"]
      send_btn_enabled := false } rfl

/-- Claim C9 as stated is false on the code: after ten failed attempts
(messages `"m0"` ... `"m9"`, each one a validated send whose dispatch ended in
`handle_error`), the eleventh send does dispatch, but its payload no longer
contains the user message `"m0"` of the first failed attempt — the
10-message truncation of src/main.py:191-192 evicted it.  So the next
payload of the next dispatch does not include the user message of *every* previously
failed attempt. -/
theorem c9_failed_attempts_counterexample :
    isDispatched (send_message failedTenState "k" "m10" "deepseek-chat" dparams).1 = true ∧
    Message.mk Role.user "m0" ∈ failedTenState.history ∧
    Message.mk Role.user "m0" ∉
      payloadMessages (send_message failedTenState "k" "m10" "deepseek-chat" dparams).1 := by
  decide

/-- Claim C9, amended: when a dispatch ends in failure, the failure handler
leaves the session unchanged, and the user message appended before that
dispatch remains in the session; therefore the payload of the next dispatch still
includes the user message of the immediately preceding failed attempt (user
messages of older failed attempts may meanwhile have been evicted by the
10-message window). -/
theorem c9_failed_attempts_amended (st : ChatState)
    (rawKey rawMsg model : String) (params : Params)
    (pay : Payload) (st' : ChatState)
    (hd : send_message st rawKey rawMsg model params =
      (SendAction.dispatched pay, st'))
    (e rawKey2 rawMsg2 model2 : String) (params2 : Params)
    (pay2 : Payload) (st2 : ChatState)
    (hd2 : send_message (handle_error st' e) rawKey2 rawMsg2 model2 params2 =
      (SendAction.dispatched pay2, st2)) :
    (handle_error st' e).history = st'.history ∧
    ({ role := Role.user, content := strip rawMsg } : Message) ∈ st'.history ∧
    ({ role := Role.user, content := strip rawMsg } : Message) ∈ pay2.messages := by
  obtain ⟨hp, hs⟩ := send_message_dispatched hd
  obtain ⟨hp2, hs2⟩ := send_message_dispatched hd2
  subst hs
  refine ⟨rfl, ?_, ?_⟩
  · show _ ∈ appendUser st.history (strip rawMsg)
    rw [appendUser_eq_drop]
    exact List.mem_append_right _ (List.mem_singleton.mpr rfl)
  · subst hp2
    show _ ∈ appendUser (appendUser st.history (strip rawMsg)) (strip rawMsg2)
    rw [appendUser_eq_drop st.history (strip rawMsg), appendUser_eq_drop,
      List.drop_append_of_le_length (by simp)]
    exact List.mem_append_left _
      (List.mem_append_right _ (List.mem_singleton.mpr rfl))

/-- Witness for `c9_failed_attempts_amended`: a failed send of `"m"` followed
by a send of `"m2"` produces a payload still containing the `"m"` user
message. -/
theorem c9_failed_attempts_witness :
    ({ role := Role.user, content := "m" } : Message) ∈
      [Message.mk Role.user "m", Message.mk Role.user "m2"] :=
  (c9_failed_attempts_amended initState "k" "m" "deepseek-chat" dparams
    { model := "deepseek-chat"
      messages := [{ role := Role.user, content := "m" }]
      temperature := 7 / 10
      top_p := 1
      max_tokens := 1024 }
    { history := [{ role := Role.user, content := "m" }]
      api_history := ["k"]
      send_btn_enabled := false } rfl
    "boom" "k" "m2" "deepseek-chat" dparams
    { model := "deepseek-chat"
      messages := [{ role := Role.user, content := "m" },
                   { role := Role.user, content := "m2" }]
      temperature := 7 / 10
      top_p := 1
      max_tokens := 1024 }
    { history := [{ role := Role.user, content := "m" },
                  { role := Role.user, content := "m2" }]
      api_history := ["k"]
      send_btn_enabled := false } rfl).2.2

/-- Claim C10: a 200 response with a non-empty `"choices"` list whose first
choice lacks the `"message"` key or the `"content"` key makes the extraction
on src/main.py:48 raise, so the failure fires through the generic `except`
branch (src/main.py:56-57) — its message is `"请求失败: "` followed by the
description of the fault — and not through the fixed malformed-format diagnostic
of src/main.py:51. -/
theorem c10_generic_exception (text : String) (c0 : ChoiceObj)
    (rest : List ChoiceObj)
    (h : c0.message = none ∨ ∃ m, c0.message = some m ∧ m.content = none) :
    ∃ d, ApiThread.run (HttpResult.resp 200 text (BodyParse.parsed
        { choices := some (c0 :: rest) })) =
          Outcome.failure ("请求失败: " ++ d) ∧
      ("请求失败: " ++ d) ≠ "无效的API响应格式" := by
  obtain ⟨mo⟩ := c0
  rcases h with h | ⟨m, hm, hc⟩
  · have hmo : mo = none := h
    subst hmo
    exact ⟨"\x27message\x27", rfl, by decide⟩
  · have hmo : mo = some m := hm
    subst hmo
    obtain ⟨co⟩ := m
    have hco : co = none := hc
    subst hco
    exact ⟨"\x27content\x27", rfl, by decide⟩

/-- Witness for `c10_generic_exception`: a first choice with no `"message"`
key fails through the generic branch. -/
theorem c10_generic_exception_witness :
    ∃ d, ApiThread.run (HttpResult.resp 200 "b" (BodyParse.parsed
        { choices := some [{ message := none }] })) =
          Outcome.failure ("请求失败: " ++ d) ∧
      ("请求失败: " ++ d) ≠ "无效的API响应格式" :=
  c10_generic_exception "b" { message := none } [] (Or.inl rfl)
